import Mathlib

/-!
Verification of the Minecraft-Server-Manager repository: a shallow embedding of
its wire codec (VarInt pack/unpack), Java status prober normalization, status
cache, and monitor event derivation, with theorems checking the specification's
claims against the code.

Conventions of the embedding:
* Python byte strings are `List Nat` (each element < 256 where it matters).
* Python's arbitrary-precision `int` is `Int`; on it, `v & 0x7F` equals
  `v % 128` with Python's nonnegative remainder (Lean `Int.emod`, the `%` of
  `Int`), and the arithmetic shift `v >> 7` is floor division `Int.fdiv v 128`.
* Unbounded `while True:` loops are given explicit fuel and return `none` when
  the fuel is exhausted, so nontermination of the source loop is expressible.
* `raise` is `Except.error` carrying the exception message.
-/

namespace MCSM

/-- The signedness fixup shared by the decoders:
`if result > 0x7FFFFFFF: result -= 0x100000000`. -/
def toSigned32 (n : Nat) : Int :=
  if n > 0x7FFFFFFF then (n : Int) - 0x100000000 else (n : Int)

/-- The shared body of the three VarInt packers (`pack_varint` in
`forge_login_client.py`, `MinecraftPing._pack_varint` in `server.py`,
`MinecraftQuery._pack_varint` in `server_info.py`):

```
while True:
    byte = value & 0x7F
    value >>= 7
    if value != 0:
        byte |= 0x80
    result.append(byte)
    if value == 0:
        break
```

`byte | 0x80` is `byte + 128` because `byte = value & 0x7F < 128`. -/
def packLoop : Nat → Int → List Nat → Option (List Nat)
  | 0, _, _ => none
  | fuel + 1, value, acc =>
    let byte : Int := value % 128
    let value' : Int := Int.fdiv value 128
    let byte : Int := if value' ≠ 0 then byte + 128 else byte
    let acc := acc ++ [byte.toNat]
    if value' = 0 then some acc else packLoop fuel value' acc

/-- Model of `pack_varint` in `forge_login_client.py`:
negative inputs are first mapped to `(1 << 32) + value`. -/
def pack_varint (fuel : Nat) (value : Int) : Option (List Nat) :=
  let value := if value < 0 then (4294967296 : Int) + value else value
  packLoop fuel value []

/-- Model of `MinecraftPing._pack_varint` in `server.py`: textually the same algorithm
as `pack_varint` of `forge_login_client.py`. -/
def MinecraftPing_pack_varint (fuel : Nat) (value : Int) : Option (List Nat) :=
  let value := if value < 0 then (4294967296 : Int) + value else value
  packLoop fuel value []

/-- Model of `MinecraftQuery._pack_varint` in `server_info.py`: the same loop but with
NO adjustment of negative inputs before it. -/
def MinecraftQuery_pack_varint (fuel : Nat) (value : Int) : Option (List Nat) :=
  packLoop fuel value []

/-- Model of `read_varint_from_socket` in `forge_login_client.py`, on a byte stream.
`sock.recv(1)` returning `b''` (stream exhausted) yields `None`. The result
pairs carry the number of bytes consumed from the stream; an error also
carries the bytes consumed up to and including the byte that triggered it.

```
while True:
    b = sock.recv(1)
    if not b: return None
    byte = b[0]
    result |= (byte & 0x7F) << shift
    shift += 7
    if not (byte & 0x80): break
    if shift > 35: raise Exception("VarInt too big")
if result > 0x7FFFFFFF: result -= 0x100000000
return result
``` -/
def readVarintSockLoop : List Nat → Nat → Nat → Nat → Except (String × Nat) (Option Int × Nat)
  | [], _, _, consumed => .ok (none, consumed)
  | b :: rest, result, shift, consumed =>
    let result := result ||| (b &&& 0x7F) <<< shift
    let shift := shift + 7
    if b &&& 0x80 == 0 then
      .ok (some (toSigned32 result), consumed + 1)
    else if shift > 35 then
      .error ("VarInt too big", consumed + 1)
    else
      readVarintSockLoop rest result shift (consumed + 1)

/-- Entry point of `read_varint_from_socket` (initial `result = 0`, `shift = 0`). -/
def read_varint_from_socket (stream : List Nat) : Except (String × Nat) (Option Int × Nat) :=
  readVarintSockLoop stream 0 0 0

/-- The loop of `ForgeLoginClient._read_varint_from_bytes` on the bytes from
`offset` on; `count` is `idx - offset`. Running past the end of the buffer
returns `(None, idx - offset)`. -/
def readVarintBytesLoop : List Nat → Nat → Nat → Nat → Except String (Option Int × Nat)
  | [], _, _, count => .ok (none, count)
  | b :: rest, result, shift, count =>
    let result := result ||| (b &&& 0x7F) <<< shift
    let shift := shift + 7
    if b &&& 0x80 == 0 then
      .ok (some (toSigned32 result), count + 1)
    else if shift > 35 then
      .error "VarInt too big"
    else
      readVarintBytesLoop rest result shift (count + 1)

/-- Model of `ForgeLoginClient._read_varint_from_bytes(data, offset)`. -/
def read_varint_from_bytes (data : List Nat) (offset : Nat) : Except String (Option Int × Nat) :=
  readVarintBytesLoop (data.drop offset) 0 0 0

/-- Model of `MinecraftPing._read_varint` in `server.py` on a byte stream. The loop has
no byte cap at all; stream exhaustion (empty `recv`, or three one-second
`select` timeouts) falls through to `raise Exception("读取VarInt超时")`.
The result carries the number of bytes consumed. -/
def MinecraftPing_read_varint : List Nat → Nat → Nat → Nat → Except String (Int × Nat)
  | [], _, _, _ => .error "读取VarInt超时"
  | b :: rest, result, shift, consumed =>
    let result := result ||| (b &&& 0x7F) <<< shift
    if b &&& 0x80 == 0 then
      .ok (toSigned32 result, consumed + 1)
    else
      MinecraftPing_read_varint rest result (shift + 7) (consumed + 1)

/-! ### Color-code stripping

`MinecraftPing.clean_mc_formatting` (`server.py`) and
`SimpleMinecraftPing.clean_mc_formatting` (`server_monitor.py`) both perform
`re.sub(r'§[0-9a-fklmnor]', '', text)`: the leftmost-first, non-overlapping
occurrences of `§` followed by a class character are deleted, and after a
match the scan resumes after the deleted pair. The monitor's variant guards
with `if text else ""`, which agrees on every string (`re.sub` on `""` is `""`). -/

/-- Membership in the regex character class `[0-9a-fklmnor]`. -/
def isCodeChar (c : Char) : Bool :=
  ('0' ≤ c && c ≤ '9') || ('a' ≤ c && c ≤ 'f') ||
  c == 'k' || c == 'l' || c == 'm' || c == 'n' || c == 'o' || c == 'r'

/-- Behavior of `re.sub` with pattern `§[0-9a-fklmnor]` and empty replacement,
on a character list: at each position,
if `§` plus a class character starts here the pair is dropped and scanning
resumes after it; otherwise the character is kept and scanning moves one
position right. -/
def clean_mc_formatting : List Char → List Char
  | [] => []
  | [a] => [a]
  | a :: c :: rest =>
    if a == '§' && isCodeChar c then clean_mc_formatting rest
    else a :: clean_mc_formatting (c :: rest)

/-- String-level wrapper of the stripping function. -/
def stripMC (s : String) : String :=
  ⟨clean_mc_formatting s.data⟩

/-- Whether the regex `§[0-9a-fklmnor]` matches anywhere in the list. -/
def hasCodeMatch : List Char → Bool
  | [] => false
  | [_] => false
  | a :: c :: rest => (a == '§' && isCodeChar c) || hasCodeMatch (c :: rest)

/-- Whether two consecutive `§` characters occur anywhere in the list. -/
def hasDoubleSec : List Char → Bool
  | [] => false
  | [_] => false
  | a :: c :: rest => (a == '§' && c == '§') || hasDoubleSec (c :: rest)

/-! ### Java status normalization (`MinecraftQuery.ping_java`, `server_info.py`)

The success path of `ping_java` reads the parsed status JSON `data` and builds
the normalized result dict. We model the JSON fields the function reads; the
MOTD normalization (`parse_motd`, an ANSI-color conversion) is orthogonal to
the claims and is not part of the modelled result. -/

/-- Python `str.lower()` (ASCII range, which is all the comparison with
`"forge"` can depend on), as a per-character map. -/
def pyLower (s : String) : String :=
  ⟨s.data.map Char.toLower⟩

/-- One entry of `modinfo.modList`. -/
structure ModEntry where
  modid : String
  version : String
deriving DecidableEq, Repr

/-- The `modinfo` object of a status response, with the two keys the code
reads: `type` and `modList`. -/
structure Modinfo where
  type : Option String
  modList : Option (List ModEntry)
deriving DecidableEq, Repr

/-- The parsed status JSON, restricted to the keys `ping_java` reads.
`hasFmlKey` records whether the top-level JSON object has an `"fml"` key. -/
structure StatusJson where
  versionName : Option String
  versionProtocol : Option Int
  playersOnline : Option Int
  playersMax : Option Int
  playersSample : Option (List (Option String))
  modinfo : Option Modinfo
  hasFmlKey : Bool
deriving Repr

/-- The normalized Java ping result built on the success path of
`MinecraftQuery.ping_java` (minus the MOTD field, see above). `mods` is
`none` when the `"mods"` key is not added to the result dict. -/
structure JavaPingResult where
  server_type : String
  connect_time : Int
  version_name : String
  version_protocol : String
  players_online : Int
  players_max : Int
  players_sample : List String
  forge : Bool
  mods : Option (List ModEntry)
deriving Repr

/-- The normalization performed by `MinecraftQuery.ping_java` on a parsed
status JSON:

```
player_list = [p.get("name", "Anonymous Player") for p in players.get("sample", [])]
mod_info = data.get("modinfo", {})
is_forge = mod_info.get("type", "").lower() == "forge" or "fml" in data
... "forge": is_forge ...
if is_forge and "modList" in mod_info:
    result["mods"] = mod_info["modList"]
``` -/
def MinecraftQuery_ping_java (connectTime : Int) (data : StatusJson) : JavaPingResult :=
  let playerList := (data.playersSample.getD []).map (fun p => p.getD "Anonymous Player")
  let modInfoType := (data.modinfo.map (fun mi => mi.type.getD "")).getD ""
  let isForge := pyLower modInfoType == "forge" || data.hasFmlKey
  { server_type := "java"
    connect_time := connectTime
    version_name := data.versionName.getD "未知"
    version_protocol := toString (data.versionProtocol.getD (-1))
    players_online := data.playersOnline.getD 0
    players_max := data.playersMax.getD 0
    players_sample := playerList
    forge := isForge
    mods := if isForge then data.modinfo.bind (fun mi => mi.modList) else none }

/-! ### Result dicts and the failure shapes -/

/-- A Python value stored in a result dict (only the shapes the modelled code
stores: strings, ints, and the `srv_info` sub-dict). -/
inductive PVal
  | s (x : String)
  | i (n : Int)
  | srvInfo (originalHost : String) (originalPort : Nat)
      (resolvedHost : String) (resolvedPort : Nat)
deriving DecidableEq, Repr

/-- A Python dict with string keys, as an insertion-ordered association list. -/
abbrev PyDict := List (String × PVal)

/-- Python `d[k] = v`: replace in place if the key exists, else append. -/
def dictSet (d : PyDict) (k : String) (v : PVal) : PyDict :=
  if d.any (fun kv => kv.1 == k) then
    d.map (fun kv => if kv.1 == k then (k, v) else kv)
  else d ++ [(k, v)]

/-- Python `d.get(k)`. -/
def dictGet (d : PyDict) (k : String) : Option PVal :=
  (d.find? (fun kv => kv.1 == k)).map (fun kv => kv.2)

/-- Python `k in d`. -/
def dictHasKey (d : PyDict) (k : String) : Bool :=
  d.any (fun kv => kv.1 == k)

/-- Model of `MinecraftPing._create_error_result(error_msg, server_type)` in `server.py`:

```
return {"error": error_msg, "connect_time": 0, "query_time": 0,
        "motd": "", "server_type": server_type}
``` -/
def create_error_result (errorMsg serverType : String) : PyDict :=
  [("error", .s errorMsg), ("connect_time", .i 0), ("query_time", .i 0),
   ("motd", .s ""), ("server_type", .s serverType)]

/-- The connect-timeout failure dict of `MinecraftQuery.ping_java`
(`server_info.py`): `{"error": "连接超时", "connect_time": ...}`. -/
def ping_java_timeout_result (connectTime : Int) : PyDict :=
  [("error", .s "连接超时"), ("connect_time", .i connectTime)]

/-! ### SRV resolution and the handshake host (`server.py`) -/

/-- The four fields `MinecraftPing.ping_java` writes into the Handshake
packet body after the packet id: protocol version, `_pack_string(host)`,
`struct.pack('>H', port)`, next state. -/
structure Handshake where
  protocolVersion : Int
  addr : String
  port : Nat
  nextState : Int
deriving DecidableEq, Repr

/-- Field assembly in `MinecraftPing.ping_java(host, port, timeout)`: the
handshake carries `ping_java`'s own `host` and `port` arguments, with
protocol version `-1` and next state `1`. -/
def ping_java_handshake (host : String) (port : Nat) : Handshake :=
  { protocolVersion := -1, addr := host, port := port, nextState := 1 }

/-- Python `struct.pack` with format `>H`: big-endian unsigned 16-bit. -/
def packU16BE (port : Nat) : List Nat :=
  [port / 256 % 256, port % 256]

/-- Model of `_pack_string(s)`: VarInt byte length followed by the UTF-8 bytes. -/
def pack_string (fuel : Nat) (s : String) : Option (List Nat) :=
  let data := s.toUTF8.toList.map (fun b => b.toNat)
  (MinecraftPing_pack_varint fuel data.length).map (fun hd => hd ++ data)

/-- The handshake packet body built by `MinecraftPing.ping_java`
(`0x00` id byte, then the four fields). -/
def handshake_bytes (fuel : Nat) (hs : Handshake) : Option (List Nat) :=
  match MinecraftPing_pack_varint fuel hs.protocolVersion, pack_string fuel hs.addr,
      MinecraftPing_pack_varint fuel hs.nextState with
  | some pv, some ps, some ns => some ([0x00] ++ pv ++ ps ++ packU16BE hs.port ++ ns)
  | _, _, _ => none

/-- The wiring in `MinecraftPing.ping`: `_resolve_with_srv(host, port)` yields
`(resolved_host, resolved_port, used_srv)` — the SRV answer when one exists,
the original endpoint otherwise — and the probe is
`ping_java(resolved_host, resolved_port, timeout)`. `srvResult` is the SRV
answer, `none` when resolution found no record. -/
def ping_handshake (host : String) (port : Nat) (srvResult : Option (String × Nat)) : Handshake :=
  let resolved := srvResult.getD (host, port)
  ping_java_handshake resolved.1 resolved.2

/-! ### The status cache in `MinecraftPing.ping` (`server.py`)

`MinecraftPing.cache` maps `f"{resolved_host}:{resolved_port}:{server_type}"`
to `(result_dict, expiry)` with `expiry = store_time + CACHE_DURATION` and
`CACHE_DURATION = 60`. On a hit the stored dict OBJECT is returned, and when
SRV was used, `cached_data['srv_info'] = ...` mutates that stored object
before returning it; we model the aliasing by writing the updated dict back
into the cache. Time is a `Nat` parameter `now`; the SRV resolution outcome
and the probe's would-be result are parameters (network effects). -/

/-- The status cache: `key → (result dict, expiry)`, insertion-ordered. -/
abbrev StatusCache := List (String × PyDict × Nat)

/-- The cache key `f"{resolved_host}:{resolved_port}:{server_type}"`. -/
def mkCacheKey (rh : String) (rp : Nat) (serverType : String) : String :=
  rh ++ ":" ++ toString rp ++ ":" ++ serverType

/-- Lookup in the status cache. -/
def cacheLookup (cache : StatusCache) (k : String) : Option (PyDict × Nat) :=
  (cache.find? (fun e => e.1 == k)).map (fun e => e.2)

/-- Python `cache[key] = v`. -/
def cacheStore (cache : StatusCache) (k : String) (v : PyDict × Nat) : StatusCache :=
  if cache.any (fun e => e.1 == k) then
    cache.map (fun e => if e.1 == k then (k, v) else e)
  else cache ++ [(k, v)]

/-- The probe-and-store path of `MinecraftPing.ping` (no valid cache hit):
run the probe, stamp `query_timestamp`, add the SRV fields when SRV was
used, store under the key with expiry `now + 60`, and return the result. -/
def ping_probe_path (host : String) (port : Nat) (rh : String) (rp : Nat)
    (usedSrv : Bool) (now : Nat) (probeOutcome : PyDict) (cache : StatusCache)
    (key : String) : PyDict × StatusCache :=
  let result := dictSet probeOutcome "query_timestamp" (.i now)
  let result :=
    if usedSrv then
      dictSet (dictSet (dictSet result "srv_info" (.srvInfo host port rh rp))
          "original_address" (.s (host ++ ":" ++ toString port)))
        "resolved_address" (.s (rh ++ ":" ++ toString rp))
    else result
  (result, cacheStore cache key (result, now + 60))

/-- Model of `MinecraftPing.ping(host, port, timeout, use_cache, server_type)`:
cancel check, SRV resolution (`srvResult`), cache lookup (TTL-checked),
in-place `srv_info` overlay on a hit, probe-and-store otherwise.
`probeOutcome` is the dict `ping_java`/`ping_bedrock` would return (both
catch their exceptions internally, so the exception fallback path of `ping`
is not reachable through them). -/
def MinecraftPing_ping (cancel : Bool) (host : String) (port : Nat)
    (useCache : Bool) (serverType : String) (srvResult : Option (String × Nat))
    (now : Nat) (probeOutcome : PyDict) (cache : StatusCache) :
    PyDict × StatusCache :=
  if cancel then
    ([("error", .s "查询已取消"), ("connect_time", .i 0), ("query_time", .i 0)], cache)
  else
    let rh := (srvResult.getD (host, port)).1
    let rp := (srvResult.getD (host, port)).2
    let usedSrv := srvResult.isSome
    let key := mkCacheKey rh rp serverType
    match (if useCache then cacheLookup cache key else none) with
    | some (cachedData, expiry) =>
      if now < expiry then
        if usedSrv then
          let cd := dictSet cachedData "srv_info" (.srvInfo host port rh rp)
          (cd, cacheStore cache key (cd, expiry))
        else (cachedData, cache)
      else ping_probe_path host port rh rp usedSrv now probeOutcome cache key
    | none => ping_probe_path host port rh rp usedSrv now probeOutcome cache key

/-! ### Monitor event derivation (`ServerMonitor.check_server_status`,
`server_monitor.py`)

The sampler state is `(last_result, last_players, last_player_count)`
(`__init__`: `None`, `set()`, `-1`). One call of `check_server_status`
consumes one probe result and appends events via `add_event`; timestamps and
the event queue are orthogonal to the derivation and are not modelled.
Python sets of cleaned player names are modelled as insertion-ordered
duplicate-free lists; set difference iterates in that order. -/

/-- The `players` sub-dict of a probe result as the monitor reads it. -/
structure MonPlayers where
  online : Option Int
  sample : Option (List (Option String))
deriving Repr

/-- A probe result as the monitor reads it: an `error` key or player data. -/
structure MonProbeResult where
  error : Option String
  players : Option MonPlayers
deriving Repr

/-- A `MonitorEvent` (without the wall-clock timestamp and derived color). -/
structure MonitorEvent where
  event_type : String
  message : String
  player_name : Option String
  diff : Option Int
  server_name : String
deriving DecidableEq, Repr

/-- The sampler state fields the derivation reads and writes. -/
structure MonitorState where
  lastResult : Option MonProbeResult
  lastPlayers : Option (List String)
  lastPlayerCount : Int
deriving Repr

/-- Python `set.add`: append if not already present. -/
def setInsert (l : List String) (x : String) : List String :=
  if l.contains x then l else l ++ [x]

/-- Building the Python set of cleaned sample names. -/
def namesToSet (names : List String) : List String :=
  names.foldl setInsert []

/-- Model of `ServerMonitor.check_server_status`, as a function from the previous
state and the current probe result to the new state and the events emitted
(in `add_event` order: status change, count change, joins, leaves). -/
def check_server_status (serverType : String) (serverName : String)
    (st : MonitorState) (cur : MonProbeResult) :
    MonitorState × List MonitorEvent :=
  let statusEvents : List MonitorEvent :=
    match st.lastResult with
    | none => []
    | some lr =>
      let lastOnline := lr.error.isNone
      let curOnline := cur.error.isNone
      if lastOnline != curOnline then
        if curOnline then
          [⟨"status_change", "服务器状态: 离线 → 上线", none, none, serverName⟩]
        else
          let errorMsg := cur.error.getD "未知错误"
          [⟨"status_change", "服务器状态: 上线 → 离线 (" ++ errorMsg ++ ")",
            none, none, serverName⟩]
      else []
  if cur.error.isNone then
    let cnt : Int :=
      match cur.players with
      | some p => p.online.getD 0
      | none => 0
    let countEvents : List MonitorEvent :=
      if st.lastPlayerCount ≥ 0 ∧ cnt ≠ st.lastPlayerCount then
        [⟨"player_count",
          "玩家数量变化: " ++ toString st.lastPlayerCount ++ " → " ++ toString cnt,
          none, some (cnt - st.lastPlayerCount), serverName⟩]
      else []
    if serverType == "java" then
      let currentPlayers : List String :=
        match cur.players with
        | some p =>
          match p.sample with
          | some sm => namesToSet (sm.map (fun n => stripMC (n.getD "未知")))
          | none => []
        | none => []
      let joinLeaveEvents : List MonitorEvent :=
        match st.lastPlayers with
        | none => []
        | some last =>
          (currentPlayers.filter (fun x => !(last.contains x))).map
            (fun p => ⟨"player_join", "玩家加入: " ++ p, some p, none, serverName⟩)
          ++ (last.filter (fun x => !(currentPlayers.contains x))).map
            (fun p => ⟨"player_leave", "玩家退出: " ++ p, some p, none, serverName⟩)
      (⟨some cur, some currentPlayers, cnt⟩, statusEvents ++ countEvents ++ joinLeaveEvents)
    else
      (⟨some cur, st.lastPlayers, cnt⟩, statusEvents ++ countEvents)
  else
    (⟨some cur, st.lastPlayers, st.lastPlayerCount⟩, statusEvents)

/-! ### Concrete inputs used by claims -/

/-- The spec's "Forge" end-to-end scenario: the status JSON carries
`"modinfo": {"type": "FML", "modList": [{"modid": "jei", "version": "11.2"}]}`
and no top-level `"fml"` key. -/
def fmlStatusExample : StatusJson :=
  { versionName := some "1.20.1", versionProtocol := some 763,
    playersOnline := some 2, playersMax := some 20,
    playersSample := some [some "Alice"],
    modinfo := some { type := some "FML", modList := some [⟨"jei", "11.2"⟩] },
    hasFmlKey := false }

/-- A stored status-cache dict without an `srv_info` key. -/
def cacheEntryExample : PyDict :=
  [("motd", .s "hi"), ("server_type", .s "java")]

/-- A status cache holding that dict for the SRV-resolved endpoint
`mc1.example.com:25580` (Java), with expiry 100. -/
def cacheExample : StatusCache :=
  [(mkCacheKey "mc1.example.com" 25580 "java", (cacheEntryExample, 100))]

/-! ## Helper lemmas -/

theorem hasCodeMatch_cons (a : Char) (l : List Char) (ha : (a == '§') = false)
    (hl : hasCodeMatch l = false) : hasCodeMatch (a :: l) = false := by
  cases l with
  | nil => rfl
  | cons c rest => simp [hasCodeMatch, ha] at hl ⊢; exact hl

theorem hasDoubleSec_tail (a : Char) (l : List Char)
    (h : hasDoubleSec (a :: l) = false) : hasDoubleSec l = false := by
  cases l with
  | nil => rfl
  | cons c rest => simp [hasDoubleSec] at h; exact h.2

theorem clean_cons_ne (a : Char) (l : List Char) (ha : (a == '§') = false) :
    clean_mc_formatting (a :: l) = a :: clean_mc_formatting l := by
  cases l with
  | nil => rfl
  | cons c rest => simp [clean_mc_formatting, ha]

/-- A list without any `§`-code match is left unchanged by the stripper. -/
theorem clean_of_no_match (l : List Char) (h : hasCodeMatch l = false) :
    clean_mc_formatting l = l := by
  induction l using clean_mc_formatting.induct with
  | case1 => rfl
  | case2 a => rfl
  | case3 a c rest hcond ih =>
    simp [hasCodeMatch, hcond] at h
  | case4 a c rest hcond ih =>
    simp [hasCodeMatch, hcond] at h
    simp [clean_mc_formatting, hcond, ih h]

/-- Stripping a list without consecutive `§` characters leaves no match behind:
an unmatched `§` kept by the stripper was followed by a non-class character,
and without `§§` that follower is never itself deleted. -/
theorem hasCodeMatch_clean (l : List Char) (h : hasDoubleSec l = false) :
    hasCodeMatch (clean_mc_formatting l) = false := by
  induction l using clean_mc_formatting.induct with
  | case1 => rfl
  | case2 a => rfl
  | case3 a c rest hcond ih =>
    rw [clean_mc_formatting]
    simp only [hcond, if_true]
    exact ih (hasDoubleSec_tail _ _ (hasDoubleSec_tail _ _ h))
  | case4 a c rest hcond ih =>
    have ihm := ih (hasDoubleSec_tail _ _ h)
    rw [clean_mc_formatting]
    simp only [hcond, Bool.false_eq_true, if_false]
    cases ha : a == '§' with
    | false => exact hasCodeMatch_cons a _ ha ihm
    | true =>
      have hc : (c == '§') = false := by
        cases hcs : c == '§'
        · rfl
        · simp [hasDoubleSec, ha, hcs] at h
      rw [clean_cons_ne c rest hc] at ihm ⊢
      rw [hasCodeMatch]
      simp [hcond, ihm]

theorem fdiv_ofNat_128 (n : Nat) : Int.fdiv (Int.ofNat n) 128 = Int.ofNat (n / 128) := by
  cases n with
  | zero => rfl
  | succ m => rfl

theorem fdiv_negSucc_128 (m : Nat) : Int.fdiv (Int.negSucc m) 128 = Int.negSucc (m / 128) := rfl

/-- More fuel never changes a `packLoop` run that already produced a value. -/
theorem packLoop_mono : ∀ (n m : Nat) (v : Int) (acc r : List Nat), n ≤ m →
    packLoop n v acc = some r → packLoop m v acc = some r := by
  intro n
  induction n with
  | zero => intro m v acc r _ h; simp [packLoop] at h
  | succ k ih =>
    intro m v acc r hle h
    cases m with
    | zero => omega
    | succ m' =>
      rw [packLoop] at h ⊢
      by_cases hz : Int.fdiv v 128 = 0
      · simpa [hz] using h
      · simp only [hz, if_false] at h ⊢
        exact ih m' _ _ _ (by omega) h

/-- On a negative value the loop never exits: the floor shift keeps the value
negative, so `value == 0` never holds and every fuel bound is exhausted. -/
theorem packLoop_neg : ∀ (n : Nat) (v : Int) (acc : List Nat), v < 0 →
    packLoop n v acc = none := by
  intro n
  induction n with
  | zero => intro v acc _; rfl
  | succ k ih =>
    intro v acc hv
    cases v with
    | ofNat p => exact absurd hv (Int.not_lt.mpr (Int.ofNat_nonneg p))
    | negSucc m =>
      rw [packLoop]
      have hfd : Int.fdiv (Int.negSucc m) 128 = Int.negSucc (m / 128) := fdiv_negSucc_128 m
      simp only [hfd]
      have : Int.negSucc (m / 128) ≠ 0 := by exact Int.negSucc_ne_zero _
      simp only [this, if_false]
      exact ih _ _ (Int.negSucc_lt_zero _)

/-- On a nonnegative value the loop terminates (with `n + 1` fuel for value
`n`) and produces at least one byte. -/
theorem packLoop_nonneg_some : ∀ (n : Nat) (acc : List Nat),
    ∃ bytes, packLoop (n + 1) (Int.ofNat n) acc = some bytes ∧ bytes ≠ [] := by
  intro n
  induction n using Nat.strong_induction_on with
  | _ n ih =>
    intro acc
    rw [packLoop]
    rw [fdiv_ofNat_128]
    by_cases hz : n / 128 = 0
    · exact ⟨acc ++ [(Int.ofNat n % 128).toNat], by simp [hz], by simp⟩
    · have hz' : Int.ofNat (n / 128) ≠ 0 := by
        intro h
        exact hz (Int.ofNat_inj.mp h)
      simp only [hz', if_false]
      have hnpos : 0 < n := by
        rcases Nat.eq_zero_or_pos n with h | h
        · exact absurd (by simp [h]) hz
        · exact h
      have hlt : n / 128 < n := Nat.div_lt_self hnpos (by omega)
      obtain ⟨bytes, hb, hne⟩ := ih (n / 128) hlt _
      exact ⟨bytes, packLoop_mono _ _ _ _ _ (by omega) hb, hne⟩

/-! ## Claims -/

/-- Claim C1, counterexample: the claim says every VarInt reader fails after
at most five consumed bytes on a stream whose first six bytes have the
continuation bit set, and never returns a value by reading past them. But
`MinecraftPing._read_varint` (`server.py`) has no cap: on the stream
`80 80 80 80 80 80 01` it consumes all seven bytes and returns a value
(`2^42` wrapped once by the 32-bit signedness fixup) instead of failing. -/
theorem C1_counterexample :
    MinecraftPing_read_varint [0x80, 0x80, 0x80, 0x80, 0x80, 0x80, 0x01] 0 0 0
      = .ok (4393751543808, 7) := rfl

/-- Claim C1, amended: the two readers in `forge_login_client.py` do raise
`VarInt too big` on a six-continuation-byte prefix, but only upon reading the
SIXTH continuation byte (six bytes consumed, not at most five), because the
`shift > 35` guard fires at `shift = 42`; and `MinecraftPing._read_varint`
(`server.py`) enforces no cap at all and decodes straight through six or more
continuation bytes. -/
theorem C1_theorem :
    (∀ b0 b1 b2 b3 b4 b5 : Nat, ∀ rest : List Nat,
      b0 &&& 0x80 ≠ 0 → b1 &&& 0x80 ≠ 0 → b2 &&& 0x80 ≠ 0 →
      b3 &&& 0x80 ≠ 0 → b4 &&& 0x80 ≠ 0 → b5 &&& 0x80 ≠ 0 →
      read_varint_from_socket (b0 :: b1 :: b2 :: b3 :: b4 :: b5 :: rest)
        = .error ("VarInt too big", 6)) ∧
    (∀ b0 b1 b2 b3 b4 b5 : Nat, ∀ rest : List Nat,
      b0 &&& 0x80 ≠ 0 → b1 &&& 0x80 ≠ 0 → b2 &&& 0x80 ≠ 0 →
      b3 &&& 0x80 ≠ 0 → b4 &&& 0x80 ≠ 0 → b5 &&& 0x80 ≠ 0 →
      read_varint_from_bytes (b0 :: b1 :: b2 :: b3 :: b4 :: b5 :: rest) 0
        = .error "VarInt too big") ∧
    MinecraftPing_read_varint [0x80, 0x80, 0x80, 0x80, 0x80, 0x80, 0x80, 0x00] 0 0 0
      = .ok (0, 8) := by
  refine ⟨?_, ?_, rfl⟩
  · intro b0 b1 b2 b3 b4 b5 rest h0 h1 h2 h3 h4 h5
    have e0 : ((b0 &&& 0x80) == 0) = false := by simpa using h0
    have e1 : ((b1 &&& 0x80) == 0) = false := by simpa using h1
    have e2 : ((b2 &&& 0x80) == 0) = false := by simpa using h2
    have e3 : ((b3 &&& 0x80) == 0) = false := by simpa using h3
    have e4 : ((b4 &&& 0x80) == 0) = false := by simpa using h4
    have e5 : ((b5 &&& 0x80) == 0) = false := by simpa using h5
    simp [read_varint_from_socket, readVarintSockLoop, e0, e1, e2, e3, e4, e5]
  · intro b0 b1 b2 b3 b4 b5 rest h0 h1 h2 h3 h4 h5
    have e0 : ((b0 &&& 0x80) == 0) = false := by simpa using h0
    have e1 : ((b1 &&& 0x80) == 0) = false := by simpa using h1
    have e2 : ((b2 &&& 0x80) == 0) = false := by simpa using h2
    have e3 : ((b3 &&& 0x80) == 0) = false := by simpa using h3
    have e4 : ((b4 &&& 0x80) == 0) = false := by simpa using h4
    have e5 : ((b5 &&& 0x80) == 0) = false := by simpa using h5
    simp [read_varint_from_bytes, readVarintBytesLoop, e0, e1, e2, e3, e4, e5]

/-- Claim C1 witness: the amended statement applied to the six-byte
all-continuation stream `80 80 80 80 80 80`. -/
theorem C1_witness :
    read_varint_from_socket [0x80, 0x80, 0x80, 0x80, 0x80, 0x80]
        = .error ("VarInt too big", 6) ∧
    read_varint_from_bytes [0x80, 0x80, 0x80, 0x80, 0x80, 0x80] 0
        = .error "VarInt too big" :=
  ⟨C1_theorem.1 0x80 0x80 0x80 0x80 0x80 0x80 [] (by decide) (by decide) (by decide)
      (by decide) (by decide) (by decide),
    C1_theorem.2.1 0x80 0x80 0x80 0x80 0x80 0x80 [] (by decide) (by decide) (by decide)
      (by decide) (by decide) (by decide)⟩

/-- Claim C2: VarInt encode/decode round-trip. For every
`v ∈ {-1, 0, 1, 127, 128, 16383, 16384, 2^31-1}` the bytes produced by the
packer decode back to `v` (via `_read_varint_from_bytes`, consuming the whole
encoding), the encoding of `-1` is exactly `FF FF FF FF 0F`, and the packer
in `server.py` agrees byte-for-byte with the one in `forge_login_client.py`. -/
theorem C2_theorem :
    pack_varint 64 (-1) = some [0xFF, 0xFF, 0xFF, 0xFF, 0x0F] ∧
    read_varint_from_bytes [0xFF, 0xFF, 0xFF, 0xFF, 0x0F] 0 = .ok (some (-1), 5) ∧
    pack_varint 64 0 = some [0x00] ∧
    read_varint_from_bytes [0x00] 0 = .ok (some 0, 1) ∧
    pack_varint 64 1 = some [0x01] ∧
    read_varint_from_bytes [0x01] 0 = .ok (some 1, 1) ∧
    pack_varint 64 127 = some [0x7F] ∧
    read_varint_from_bytes [0x7F] 0 = .ok (some 127, 1) ∧
    pack_varint 64 128 = some [0x80, 0x01] ∧
    read_varint_from_bytes [0x80, 0x01] 0 = .ok (some 128, 2) ∧
    pack_varint 64 16383 = some [0xFF, 0x7F] ∧
    read_varint_from_bytes [0xFF, 0x7F] 0 = .ok (some 16383, 2) ∧
    pack_varint 64 16384 = some [0x80, 0x80, 0x01] ∧
    read_varint_from_bytes [0x80, 0x80, 0x01] 0 = .ok (some 16384, 3) ∧
    pack_varint 64 2147483647 = some [0xFF, 0xFF, 0xFF, 0xFF, 0x07] ∧
    read_varint_from_bytes [0xFF, 0xFF, 0xFF, 0xFF, 0x07] 0 = .ok (some 2147483647, 5) ∧
    (∀ fuel v, MinecraftPing_pack_varint fuel v = pack_varint fuel v) :=
  ⟨rfl, rfl, rfl, rfl, rfl, rfl, rfl, rfl, rfl, rfl, rfl, rfl, rfl, rfl, rfl, rfl,
    fun _ _ => rfl⟩

/-- Claim C9: `MinecraftQuery._pack_varint` (`server_info.py`) terminates
with a non-empty byte string for every `v ≥ 0` (fuel `v + 1` suffices), and
the precondition is necessary: for every `v < 0` the loop value stays
negative under the arithmetic right shift, the `value == 0` exit is never
reached, and every fuel bound is exhausted. -/
theorem C9_theorem :
    (∀ v : Int, 0 ≤ v →
      ∃ bytes, MinecraftQuery_pack_varint (v.toNat + 1) v = some bytes ∧ bytes ≠ []) ∧
    (∀ v : Int, v < 0 → ∀ fuel, MinecraftQuery_pack_varint fuel v = none) := by
  constructor
  · intro v hv
    obtain ⟨n, rfl⟩ := Int.eq_ofNat_of_zero_le hv
    simpa [MinecraftQuery_pack_varint] using packLoop_nonneg_some n []
  · intro v hv fuel
    exact packLoop_neg fuel v [] hv

/-- Claim C9 witness: the theorem applied at `v = 300` and `v = -1`. -/
theorem C9_witness :
    (∃ bytes, MinecraftQuery_pack_varint ((300 : Int).toNat + 1) 300 = some bytes ∧
      bytes ≠ []) ∧
    MinecraftQuery_pack_varint 1000 (-1) = none :=
  ⟨C9_theorem.1 300 (by decide), C9_theorem.2 (-1) (by decide) 1000⟩

/-- Claim C7, counterexample: color stripping is NOT idempotent for every
string. On `"§§ka"` one pass removes `§k`, which glues the leading `§` to
`a` and forms a fresh code sequence; the second pass removes it:
`strip "§§ka" = "§a"` but `strip (strip "§§ka") = ""`. -/
theorem C7_counterexample :
    stripMC (stripMC "§§ka") ≠ stripMC "§§ka" := by decide

/-- Claim C7, amended: stripping is idempotent on every string that contains
no two consecutive `§` characters (the counterexample `"§§ka"` shows the
restriction is needed), and `strip "§aHello§r World" = "Hello World"`. -/
theorem C7_theorem :
    (∀ s : String, hasDoubleSec s.data = false → stripMC (stripMC s) = stripMC s) ∧
    stripMC "§aHello§r World" = "Hello World" := by
  constructor
  · intro s h
    exact congrArg String.mk (clean_of_no_match _ (hasCodeMatch_clean s.data h))
  · decide

/-- Claim C7 witness: the amended idempotence applied to `"§aHello"`. -/
theorem C7_witness :
    hasDoubleSec "§aHello".data = false ∧
    stripMC (stripMC "§aHello") = stripMC "§aHello" :=
  ⟨by decide, C7_theorem.1 "§aHello" (by decide)⟩

/-- Claim C10: the stripper removes exactly the non-overlapping,
left-to-right occurrences of `§` followed by a class character: such a pair
is dropped with the scan resuming after it, a `§` followed by any other
character is kept with the scan resuming AT that next character, so
`"§AHello"` is unchanged (uppercase `A` is outside the class), and
`"§§kk"` becomes `"§k"` (the freshly adjacent pair is not re-scanned). -/
theorem C10_theorem :
    (∀ (c : Char) (rest : List Char), isCodeChar c = true →
      clean_mc_formatting ('§' :: c :: rest) = clean_mc_formatting rest) ∧
    (∀ (c : Char) (rest : List Char), isCodeChar c = false →
      clean_mc_formatting ('§' :: c :: rest) = '§' :: clean_mc_formatting (c :: rest)) ∧
    stripMC "§AHello" = "§AHello" ∧
    stripMC "§§kk" = "§k" := by
  refine ⟨?_, ?_, by decide, by decide⟩
  · intro c rest h
    simp [clean_mc_formatting, h]
  · intro c rest h
    simp [clean_mc_formatting, h]

/-- Claim C10 witness: the removal equation at `c = 'k'` and the
kept-unchanged equation at `c = 'A'`. -/
theorem C10_witness :
    (isCodeChar 'k' = true ∧
      clean_mc_formatting ['§', 'k', 'X'] = clean_mc_formatting ['X']) ∧
    (isCodeChar 'A' = false ∧
      clean_mc_formatting ('§' :: 'A' :: "Hello".data)
        = '§' :: clean_mc_formatting ('A' :: "Hello".data)) :=
  ⟨⟨by decide, C10_theorem.1 'k' ['X'] (by decide)⟩,
    ⟨by decide, C10_theorem.2.1 'A' "Hello".data (by decide)⟩⟩

/-- Claim C4, counterexample: the claim's own example contradicts its rule
and the code. For the status JSON with
`"modinfo": {"type": "FML", "modList": [{"modid": "jei", "version": "11.2"}]}`
the code computes `is_forge = ("fml" == "forge") or ("fml" in data) = False`,
so the result has `forge = false` and NO `mods` key — not `forge = true`
with the mod list. -/
theorem C4_counterexample :
    (MinecraftQuery_ping_java 5 fmlStatusExample).forge = false ∧
    (MinecraftQuery_ping_java 5 fmlStatusExample).mods = none := by
  constructor
  · decide
  · simp [MinecraftQuery_ping_java, fmlStatusExample]
    decide

/-- Claim C4, amended: the biconditional itself holds — `forge = true` iff
the `modinfo` object's `type` lowercases to `"forge"` or the JSON has an
`"fml"` key — but `"FML"` does not satisfy it, so the claim's FML example
yields `forge = false` (see the counterexample). -/
theorem C4_theorem :
    ∀ (ct : Int) (data : StatusJson),
      (MinecraftQuery_ping_java ct data).forge = true ↔
        ((∃ mi, data.modinfo = some mi ∧ pyLower (mi.type.getD "") = "forge") ∨
          data.hasFmlKey = true) := by
  intro ct data
  have h0 : (pyLower "" == "forge") = false := by decide
  cases hmi : data.modinfo with
  | none => simp [MinecraftQuery_ping_java, hmi, h0]
  | some mi => simp [MinecraftQuery_ping_java, hmi, Bool.or_eq_true, beq_iff_eq]

/-- Claim C5, counterexample: with SRV substituting
`mc1.example.com:25580` for `srv.example.com:25565`, the handshake fields
carry the SRV-resolved host and port, not the caller-supplied originals. -/
theorem C5_counterexample :
    (ping_handshake "srv.example.com" 25565
        (some ("mc1.example.com", 25580))).addr = "mc1.example.com" ∧
    (ping_handshake "srv.example.com" 25565
        (some ("mc1.example.com", 25580))).addr ≠ "srv.example.com" ∧
    (ping_handshake "srv.example.com" 25565
        (some ("mc1.example.com", 25580))).port = 25580 ∧
    (25580 : Nat) ≠ 25565 :=
  ⟨rfl, by decide, rfl, by decide⟩

/-- Claim C5, amended: `MinecraftPing.ping` hands the RESOLVED host and port
to `ping_java`, which writes its own arguments into the Handshake's
`String(host)` and `U16(port)` fields; the original endpoint appears there
only when SRV resolution found no record. -/
theorem C5_theorem :
    ∀ (host : String) (port : Nat) (rh : String) (rp : Nat),
      ping_handshake host port (some (rh, rp)) = ping_java_handshake rh rp ∧
      (ping_handshake host port (some (rh, rp))).addr = rh ∧
      (ping_handshake host port (some (rh, rp))).port = rp ∧
      ping_handshake host port none = ping_java_handshake host port :=
  fun _ _ _ _ => ⟨rfl, rfl, rfl, rfl⟩

/-- Claim C8, counterexample: the failure result of `server.py` is NOT
"the error field only" — `_create_error_result` also stores the success
field `motd` (as an empty string), alongside `connect_time`, `query_time`
and `server_type`. -/
theorem C8_counterexample :
    dictHasKey (create_error_result "连接失败" "java") "motd" = true := by decide

/-- Claim C8, amended: every failure dict carries `error` and none of the
success fields `version`, `players`, `forge`, `mods` — but
`_create_error_result` (`server.py`) additionally carries `connect_time`,
`query_time`, `server_type` and an empty-string `motd` placeholder, while
the connect-timeout failure of `MinecraftQuery.ping_java`
(`server_info.py`) carries only `error` and `connect_time`. -/
theorem C8_theorem :
    ∀ (msg ty : String) (ct : Int),
      dictGet (create_error_result msg ty) "error" = some (.s msg) ∧
      dictHasKey (create_error_result msg ty) "version" = false ∧
      dictHasKey (create_error_result msg ty) "players" = false ∧
      dictHasKey (create_error_result msg ty) "forge" = false ∧
      dictHasKey (create_error_result msg ty) "mods" = false ∧
      dictGet (create_error_result msg ty) "motd" = some (.s "") ∧
      dictHasKey (create_error_result msg ty) "connect_time" = true ∧
      dictHasKey (create_error_result msg ty) "query_time" = true ∧
      dictGet (create_error_result msg ty) "server_type" = some (.s ty) ∧
      dictGet (ping_java_timeout_result ct) "error" = some (.s "连接超时") ∧
      dictHasKey (ping_java_timeout_result ct) "version" = false ∧
      dictHasKey (ping_java_timeout_result ct) "players" = false ∧
      dictHasKey (ping_java_timeout_result ct) "motd" = false ∧
      dictHasKey (ping_java_timeout_result ct) "forge" = false ∧
      dictHasKey (ping_java_timeout_result ct) "mods" = false :=
  fun _ _ _ =>
    ⟨rfl, rfl, rfl, rfl, rfl, rfl, rfl, rfl, rfl, rfl, rfl, rfl, rfl, rfl, rfl⟩

/-- Claim C6, counterexample: a fresh cache hit with SRV in play does NOT
leave the stored entry unchanged. `cached_data['srv_info'] = ...` mutates the
dict object stored in the cache before returning it, so after the call the
stored entry differs from what was stored (it gained `srv_info`): `srv_info`
IS effectively cached. -/
theorem C6_counterexample :
    (MinecraftPing_ping false "srv.example.com" 25565 true "java"
        (some ("mc1.example.com", 25580)) 50 [] cacheExample).2 ≠ cacheExample ∧
    (cacheLookup
        (MinecraftPing_ping false "srv.example.com" 25565 true "java"
          (some ("mc1.example.com", 25580)) 50 [] cacheExample).2
        (mkCacheKey "mc1.example.com" 25580 "java")).map
      (fun e => dictHasKey e.1 "srv_info") = some true := by
  constructor
  · decide
  · rfl

/-- Claim C6, amended: a cache hit younger than 60 s returns the STORED DICT
ITSELF without issuing a new probe (the result does not depend on what a
probe would have returned); when SRV was used, the `srv_info` overlay is
written into that stored dict, so it is visible in the cache afterwards (no
shallow clone). Once the entry's expiry (store time + 60 s) has passed, the
probe path runs and the fresh result is stored with a new 60 s expiry. -/
theorem C6_theorem :
    ∀ (host : String) (port : Nat) (ty rh : String) (rp : Nat) (now : Nat)
      (probe : PyDict) (cache : StatusCache) (d : PyDict) (expiry : Nat),
      (cacheLookup cache (mkCacheKey rh rp ty) = some (d, expiry) → now < expiry →
        MinecraftPing_ping false host port true ty (some (rh, rp)) now probe cache
          = (dictSet d "srv_info" (.srvInfo host port rh rp),
             cacheStore cache (mkCacheKey rh rp ty)
               (dictSet d "srv_info" (.srvInfo host port rh rp), expiry))) ∧
      (cacheLookup cache (mkCacheKey host port ty) = some (d, expiry) → now < expiry →
        MinecraftPing_ping false host port true ty none now probe cache = (d, cache)) ∧
      (cacheLookup cache (mkCacheKey rh rp ty) = some (d, expiry) → expiry ≤ now →
        MinecraftPing_ping false host port true ty (some (rh, rp)) now probe cache
          = ping_probe_path host port rh rp true now probe cache
              (mkCacheKey rh rp ty)) := by
  intro host port ty rh rp now probe cache d expiry
  refine ⟨?_, ?_, ?_⟩
  · intro hl hlt
    simp [MinecraftPing_ping, hl, hlt]
  · intro hl hlt
    simp [MinecraftPing_ping, hl, hlt]
  · intro hl hge
    simp [MinecraftPing_ping, hl, Nat.not_lt.mpr hge]

/-- Claim C6 witness: the hit branch applied to the concrete cache. -/
theorem C6_witness :
    cacheLookup cacheExample (mkCacheKey "mc1.example.com" 25580 "java")
        = some (cacheEntryExample, 100) ∧
    MinecraftPing_ping false "srv.example.com" 25565 true "java"
        (some ("mc1.example.com", 25580)) 50 [] cacheExample
      = (dictSet cacheEntryExample "srv_info"
            (.srvInfo "srv.example.com" 25565 "mc1.example.com" 25580),
         cacheStore cacheExample (mkCacheKey "mc1.example.com" 25580 "java")
           (dictSet cacheEntryExample "srv_info"
              (.srvInfo "srv.example.com" 25565 "mc1.example.com" 25580), 100)) :=
  ⟨rfl,
    (C6_theorem ("srv.example.com") 25565 "java" "mc1.example.com" 25580 50 []
        cacheExample cacheEntryExample 100).1 rfl (by decide)⟩

theorem filter_not_contains_self (l : List String) :
    l.filter (fun x => !(l.contains x)) = [] := by
  rw [List.filter_eq_nil_iff]
  intro a ha
  simp [ha]

/-- Claim C3: monitor event derivation over two consecutive successful
probes. (1) For ANY prior sampler state, any server type and any sample
list: online `3` then `5` with identical samples emits exactly one
`player_count` event with `diff = +2` and no join/leave events. (2) For a
Java monitor, samples `{A, B}` then `{B, C}` at equal counts emit exactly
one `player_join` (for `C`, color-stripped) and one `player_leave` (for
`A`), and nothing else. -/
theorem C3_theorem :
    (∀ (ty name : String) (st : MonitorState) (sample : Option (List (Option String))),
      (check_server_status ty name
          (check_server_status ty name st ⟨none, some ⟨some 3, sample⟩⟩).1
          ⟨none, some ⟨some 5, sample⟩⟩).2
        = [⟨"player_count", "玩家数量变化: 3 → 5", none, some 2, name⟩]) ∧
    (∀ (name : String) (st : MonitorState) (a b c : String),
      stripMC a ≠ stripMC b → stripMC a ≠ stripMC c → stripMC b ≠ stripMC c →
      (check_server_status "java" name
          (check_server_status "java" name st
            ⟨none, some ⟨some 2, some [some a, some b]⟩⟩).1
          ⟨none, some ⟨some 2, some [some b, some c]⟩⟩).2
        = [⟨"player_join", "玩家加入: " ++ stripMC c, some (stripMC c), none, name⟩,
           ⟨"player_leave", "玩家退出: " ++ stripMC a, some (stripMC a), none, name⟩]) := by
  constructor
  · intro ty name st sample
    have hmsg : ("玩家数量变化: " ++ toString (3 : Int) ++ " → " ++ toString (5 : Int))
        = "玩家数量变化: 3 → 5" := by decide
    rw [← hmsg]
    by_cases hty : (ty == "java") = true
    · cases sample with
      | none => simp [check_server_status, hty]
      | some sm => simp [check_server_status, hty, filter_not_contains_self]
    · have hty' : (ty == "java") = false := by
        cases h : ty == "java"
        · rfl
        · exact absurd h hty
      simp [check_server_status, hty']
  · intro name st a b c h1 h2 h3
    have hab : (stripMC a == stripMC b) = false := by simpa using h1
    have hba : (stripMC b == stripMC a) = false := by simpa using Ne.symm h1
    have hac : (stripMC a == stripMC c) = false := by simpa using h2
    have hca : (stripMC c == stripMC a) = false := by simpa using Ne.symm h2
    have hbc : (stripMC b == stripMC c) = false := by simpa using h3
    have hcb : (stripMC c == stripMC b) = false := by simpa using Ne.symm h3
    simp [check_server_status, namesToSet, setInsert, List.contains, List.elem,
      hab, hba, hac, hca, hbc, hcb, h1, h2, h3, Ne.symm h1, Ne.symm h2, Ne.symm h3]

/-- Claim C3 witness: part (2) applied to players `Alice`, `Bob`, `Carol`
from the initial sampler state. -/
theorem C3_witness :
    stripMC "Alice" ≠ stripMC "Bob" ∧ stripMC "Alice" ≠ stripMC "Carol" ∧
    stripMC "Bob" ≠ stripMC "Carol" ∧
    (check_server_status "java" "测试服"
        (check_server_status "java" "测试服" ⟨none, some [], -1⟩
          ⟨none, some ⟨some 2, some [some "Alice", some "Bob"]⟩⟩).1
        ⟨none, some ⟨some 2, some [some "Bob", some "Carol"]⟩⟩).2
      = [⟨"player_join", "玩家加入: " ++ stripMC "Carol", some (stripMC "Carol"),
            none, "测试服"⟩,
         ⟨"player_leave", "玩家退出: " ++ stripMC "Alice", some (stripMC "Alice"),
            none, "测试服"⟩] :=
  ⟨by decide, by decide, by decide,
    C3_theorem.2 "测试服" ⟨none, some [], -1⟩ "Alice" "Bob" "Carol"
      (by decide) (by decide) (by decide)⟩

end MCSM
